import Mathlib

/-!
Shallow embedding of the client-side screens of the finetake_2 repository
(social photo-sharing / marketplace app) for checking its natural-language
specification.  Effectful TypeScript operations are modelled as pure Lean
functions: every backend interaction an operation would perform is returned
explicitly as a trace of request values, and the pieces of React state an
operation writes are returned as record fields.  Backend responses are
supplied as explicit oracle arguments, so that one Lean function application
corresponds to one run of the TypeScript operation against fixed backend
answers.
-/

namespace Finetake

/-! ### Payment manager (marketplace screen, `paymentManager` object)

The `paymentManager.isValidPhoneNumber` regex is `^(07|01)\d{8}$`: ten
characters, all decimal digits, starting with "07" or "01". -/

def isValidPhoneNumber (phone : String) : Bool :=
  phone.length == 10 &&
    (phone.take 2 == "07" || phone.take 2 == "01") &&
    phone.data.all (fun c => c.isDigit)

def isValidAmount (amount : Int) : Bool :=
  amount > 0 && amount <= 150000

structure PaymentParams where
  phoneNumber : String
  imageIds : List String
  totalAmount : Int
  transactionDescription : String
deriving Repr, DecidableEq

structure PaymentResponse where
  success : Bool
  transactionId : String
  error : Option String
deriving Repr, DecidableEq

/-- Embedding of `paymentManager.initiateImagePayment`.  The TypeScript body
is a single `return { success: true, transactionId: 'mock-txn-id', error:
null }` behind a TODO comment; it issues no network request and writes no
state.  The second component of the result is the trace of network requests
the call performs (empty, matching the body), and the third is the list of
stored-state writes it performs (empty likewise). -/
def initiateImagePayment (_params : PaymentParams) :
    PaymentResponse × List String × List String :=
  ({ success := true, transactionId := "mock-txn-id", error := none }, [], [])

structure PaymentDetails where
  imageIds : List String
  totalAmount : Int
  description : String
deriving Repr, DecidableEq

inductive SnackKind where
  | success
  | error
deriving Repr, DecidableEq

/-- State recorded from `initiatePayment` on the marketplace screen.
`currentTransactionId` and `isProcessingPayment` are React state the
component renders; `snackbar` records the (message, kind) argument of the
last `showSnackBar` call the operation makes.  In this component
`showSnackBar` is a console.log stub behind a TODO comment and no snackbar
React state exists, so the recorded call is not user-visible UI — its
actual effect is `Market.showSnackBar` below. -/
structure PayUiState where
  currentTransactionId : Option String
  isProcessingPayment : Bool
  snackbar : Option (String × SnackKind)
deriving Repr, DecidableEq

/-- Effect of a snack-bar helper call: the console lines it prints and the
message it renders as UI, if any. -/
structure SnackBarEffect where
  consoleLines : List String
  renderedMessage : Option String
deriving Repr, DecidableEq

namespace Market

def kindUpper : SnackKind → String
  | SnackKind.success => "SUCCESS"
  | SnackKind.error => "ERROR"

/-- Embedding of the Market component's `showSnackBar`: the body is a
single `console.log` of the upper-cased kind and the message, behind a
TODO comment; the component holds no snackbar React state, so the call
renders nothing to the user. -/
def showSnackBar (message : String) (kind : SnackKind) : SnackBarEffect :=
  { consoleLines := [kindUpper kind ++ ": " ++ message]
    renderedMessage := none }

end Market

def initialPayUiState : PayUiState :=
  { currentTransactionId := none, isProcessingPayment := false, snackbar := none }

/-- Embedding of the tail of `initiatePayment` from the point where the
response of `paymentManager.initiateImagePayment` is in hand, parameterised
by that response.  `response.success && response.transactionId` is JS
truthiness: the string is truthy exactly when it is nonempty. -/
def initiatePaymentWith (response : PaymentResponse) (st : PayUiState) :
    PayUiState :=
  if response.success && !(response.transactionId == "") then
    { st with
        currentTransactionId := some response.transactionId,
        snackbar :=
          some ("Payment initiated. Check your phone for M-Pesa prompt.",
                  SnackKind.success) }
  else
    { st with
        isProcessingPayment := false,
        snackbar :=
          some (response.error.getD "Failed to initiate payment",
                  SnackKind.error) }

/-- Embedding of `initiatePayment`.  Guard order follows the source: return
unchanged when `paymentDetails` is null, complain when the phone number is
empty, complain when it fails validation, otherwise set the processing flag,
call the (stubbed) payment manager and branch on its response. -/
def initiatePayment (paymentDetails : Option PaymentDetails)
    (phoneNumber : String) (st : PayUiState) : PayUiState :=
  match paymentDetails with
  | none => st
  | some pd =>
    if phoneNumber == "" then
      { st with snackbar := some ("Please enter your phone number", SnackKind.error) }
    else if !(isValidPhoneNumber phoneNumber) then
      { st with
          snackbar :=
            some ("Please enter a valid Kenyan phone number (e.g., 0712345678)",
                    SnackKind.error) }
    else
      let st1 := { st with isProcessingPayment := true }
      let response := (initiateImagePayment
        { phoneNumber := phoneNumber
          imageIds := pd.imageIds
          totalAmount := pd.totalAmount
          transactionDescription := pd.description }).1
      initiatePaymentWith response st1

/-! ### Realtime subscriptions

Every `.on('postgres_changes', ...)` registration in the repository, as data:
its channel name, the single table it names, the event kind, the optional
row-level filter string, and what its handler does.  A handler either
re-issues the full query of its view and replaces the rendered rows
(`refetchAll`, tagged with the name of the reload function it calls) or
patches local state from the event payload (`patchFromPayload`). -/

inductive HandlerBehavior where
  | refetchAll (reload : String)
  | patchFromPayload
deriving Repr, DecidableEq

structure SubscriptionReg where
  channel : String
  table : String
  event : String
  filter : Option String
  behavior : HandlerBehavior
deriving Repr, DecidableEq

/-- The conversations-list screen: channel `messages_channel`, INSERT on
`messages` with no filter object, handler `loadConversations()`. -/
def messagesChannelReg : SubscriptionReg :=
  { channel := "messages_channel"
    table := "messages"
    event := "INSERT"
    filter := none
    behavior := HandlerBehavior.refetchAll "loadConversations" }

/-- The per-conversation message-detail screen: channel
`messages_<conversationId>`, INSERT on `messages` filtered to the
conversation; the handler prepends `payload.new` to local state instead of
refetching. -/
def messageDetailReg (conversationId : String) : SubscriptionReg :=
  { channel := "messages_" ++ conversationId
    table := "messages"
    event := "INSERT"
    filter := some ("conversation_id=eq." ++ conversationId)
    behavior := HandlerBehavior.patchFromPayload }

/-- The two registrations of `subscribeToMessages` in the navigation bar
(unread-message badge): INSERT and UPDATE on `messages` filtered to the
current receiver, both reloading the unread count. -/
def unreadMessagesRegs (uid : String) : List SubscriptionReg :=
  [ { channel := "unread_messages_" ++ uid
      table := "messages"
      event := "INSERT"
      filter := some ("receiver_id=eq." ++ uid)
      behavior := HandlerBehavior.refetchAll "loadUnreadMessagesCount" },
    { channel := "unread_messages_" ++ uid
      table := "messages"
      event := "UPDATE"
      filter := some ("receiver_id=eq." ++ uid)
      behavior := HandlerBehavior.refetchAll "loadUnreadMessagesCount" } ]

/-- The three registrations of `subscribeToNotifications` in the navigation
bar (unread-notification badge): INSERT and DELETE on `notifications` with
no filter object, and INSERT on `notification_reads` filtered to the current
user; each reloads the unread count. -/
def notificationBadgeRegs (uid : String) : List SubscriptionReg :=
  [ { channel := "notifications_changes_" ++ uid
      table := "notifications"
      event := "INSERT"
      filter := none
      behavior := HandlerBehavior.refetchAll "loadUnreadNotificationsCount" },
    { channel := "notifications_changes_" ++ uid
      table := "notifications"
      event := "DELETE"
      filter := none
      behavior := HandlerBehavior.refetchAll "loadUnreadNotificationsCount" },
    { channel := "notifications_changes_" ++ uid
      table := "notification_reads"
      event := "INSERT"
      filter := some ("user_id=eq." ++ uid)
      behavior := HandlerBehavior.refetchAll "loadUnreadNotificationsCount" } ]

/-- The two registrations of `setupRealtimeSubscription` on the
notifications screen: every event on `notifications` with no filter object,
and INSERT on `notification_reads` filtered to the current user; each
reloads the notification list. -/
def notificationsPageRegs (uid : String) : List SubscriptionReg :=
  [ { channel := "notifications_" ++ uid
      table := "notifications"
      event := "*"
      filter := none
      behavior := HandlerBehavior.refetchAll "loadNotifications" },
    { channel := "notifications_" ++ uid
      table := "notification_reads"
      event := "INSERT"
      filter := some ("user_id=eq." ++ uid)
      behavior := HandlerBehavior.refetchAll "loadNotifications" } ]

/-- All realtime registrations the repository creates, for a session whose
current user id is `uid` and whose open conversation id is `cid`. -/
def repoSubscriptions (uid cid : String) : List SubscriptionReg :=
  messagesChannelReg :: messageDetailReg cid ::
    (unreadMessagesRegs uid ++ notificationBadgeRegs uid ++
      notificationsPageRegs uid)

structure Message where
  id : String
  conversation_id : String
  sender_id : String
  receiver_id : String
  content : String
  is_read : Bool
deriving Repr, DecidableEq

/-- Embedding of the INSERT handler of `subscribeToMessages` on the
message-detail screen: when a current user exists and the payload message
was sent by someone else, prepend `payload.new` to the local message list
and call `markMessagesAsRead` (second component); otherwise leave the list
alone.  No query of the view is re-issued in either case. -/
def messageDetailOnInsert (currentUser : Option String)
    (prev : List Message) (payloadNew : Message) : List Message × Bool :=
  match currentUser with
  | some uid =>
    if payloadNew.sender_id ≠ uid then (payloadNew :: prev, true)
    else (prev, false)
  | none => (prev, false)

/-! ### Payments dashboard (`loadDashboardData` and its three loaders)

Backend answers are an explicit oracle.  `Except.error` models both an SDK
error result and a thrown awaited call.  The JS `Number(x || 0)` coercions
are modelled by taking the numeric fields as integers directly.  The month
key `formatMonthYear(created_at)` is locale formatting
(`Intl.DateTimeFormat`); it is abstracted as a function parameter `mk`. -/

structure Tx where
  amount : Int
  status : String
  created_at : String
deriving Repr, DecidableEq

structure DashboardStats where
  total_transactions : Nat
  completed_transactions : Nat
  failed_transactions : Nat
  pending_transactions : Nat
  total_amount_spent : Int
deriving Repr, DecidableEq

inductive DashReq where
  | rpcGetUserTransactionStats (uid : String)
  | selectMpesaAll (uid : String)
  | selectMpesaRecent (uid : String)
  | selectMpesaCompleted (uid : String)
deriving Repr, DecidableEq

structure DashOracle where
  session : Option String
  rpcStats : Except String (Option DashboardStats)
  statsRows : Except String (List Tx)
  recentRows : Except String (List Tx)
  monthlyRows : Except String (List Tx)

/-- The fallback statistics computed from the directly queried
`mpesa_transactions` rows: counts of each status and the sum of the amounts
of all rows, with no status condition on the sum. -/
def computeFallbackStats (txs : List Tx) : DashboardStats :=
  { total_transactions := txs.length
    completed_transactions := txs.countP (fun t => t.status == "completed")
    failed_transactions := txs.countP (fun t => t.status == "failed")
    pending_transactions := txs.countP (fun t => t.status == "pending")
    total_amount_spent := (txs.map (fun t => t.amount)).sum }

/-- Embedding of `loadTransactionStats`: try the server-side RPC first; when
it errs or returns no row, fall back to querying the table directly and
computing the statistics client-side. -/
def loadTransactionStats (uid : String) (o : DashOracle) :
    List DashReq × Except String DashboardStats :=
  match o.rpcStats with
  | Except.ok (some row) => ([DashReq.rpcGetUserTransactionStats uid], Except.ok row)
  | Except.ok none =>
    ([DashReq.rpcGetUserTransactionStats uid, DashReq.selectMpesaAll uid],
      o.statsRows.map computeFallbackStats)
  | Except.error _ =>
    ([DashReq.rpcGetUserTransactionStats uid, DashReq.selectMpesaAll uid],
      o.statsRows.map computeFallbackStats)

def loadRecentTransactions (uid : String) (o : DashOracle) :
    List DashReq × Except String (List Tx) :=
  ([DashReq.selectMpesaRecent uid], o.recentRows)

/-- Association-list update modelling
`monthlyData[key] = (monthlyData[key] || 0) + amount`. -/
def bumpMonth : List (String × Int) → String → Int → List (String × Int)
  | [], k, a => [(k, a)]
  | (k1, v) :: rest, k, a =>
    if k1 = k then (k1, v + a) :: rest else (k1, v) :: bumpMonth rest k a

def monthlyFold (mk : String → String) (txs : List Tx) : List (String × Int) :=
  txs.foldl (fun m t => bumpMonth m (mk t.created_at) t.amount) []

/-- Embedding of `loadMonthlyPayments`: the query itself is restricted to
the user and to rows whose status is the literal string "completed"; the
rows the oracle returns for it are folded into per-month totals. -/
def loadMonthlyPayments (uid : String) (o : DashOracle) (mk : String → String) :
    List DashReq × Except String (List (String × Int)) :=
  ([DashReq.selectMpesaCompleted uid], o.monthlyRows.map (monthlyFold mk))

structure DashUi where
  error : Option String
  redirectToLogin : Bool
  stats : Option DashboardStats
  recent : Option (List Tx)
  monthly : Option (List (String × Int))
  isLoading : Bool

/-- First error among the three parallel loads, in source order.  The
TypeScript awaits the three loaders with `Promise.all`, which rejects with
the first rejection in completion order; completion order is not determined
by the source, so source order is fixed here as the representative. -/
def firstDashError (s : Except String DashboardStats)
    (r : Except String (List Tx)) (m : Except String (List (String × Int))) :
    Option String :=
  match s with
  | Except.error e => some e
  | Except.ok _ =>
    match r with
    | Except.error e => some e
    | Except.ok _ =>
      match m with
      | Except.error e => some e
      | Except.ok _ => none

/-- Embedding of `loadDashboardData`: no session sends the user to the login
screen with an inline error; otherwise the three loaders run, each loader
that succeeds stores its slice of state, and a failure of any of them is
caught in the surrounding try and stored as the inline dashboard error. -/
def loadDashboardData (o : DashOracle) (mk : String → String) :
    List DashReq × DashUi :=
  match o.session with
  | none =>
    ([], { error := some "No authenticated user found", redirectToLogin := true,
           stats := none, recent := none, monthly := none, isLoading := false })
  | some uid =>
    let ls := loadTransactionStats uid o
    let lr := loadRecentTransactions uid o
    let lm := loadMonthlyPayments uid o mk
    let reqs := ls.1 ++ lr.1 ++ lm.1
    let err := match firstDashError ls.2 lr.2 lm.2 with
      | some e => some ("Failed to load dashboard data: " ++ e)
      | none => none
    (reqs, { error := err, redirectToLogin := false, stats := ls.2.toOption,
             recent := lr.2.toOption, monthly := lm.2.toOption,
             isLoading := false })

/-! ### Message-detail screen: `loadMessages` -/

structure LoadMessagesResult where
  requests : List String
  messages : Option (List Message)
  toast : Option (String × Bool)
  isLoading : Bool
deriving Repr, DecidableEq

/-- Embedding of `loadMessages`: nothing is fetched without a conversation
id; otherwise one select over `messages` for the conversation is issued, and
an error is caught in this call's own handler and surfaced as a toast. -/
def loadMessages (conversationId : Option String)
    (res : Except String (List Message)) : LoadMessagesResult :=
  match conversationId with
  | none => { requests := [], messages := none, toast := none, isLoading := false }
  | some cid =>
    match res with
    | Except.ok data =>
      { requests := ["select messages where conversation_id=eq." ++ cid]
        messages := some data
        toast := none
        isLoading := false }
    | Except.error _ =>
      { requests := ["select messages where conversation_id=eq." ++ cid]
        messages := none
        toast := some ("Error loading messages", true)
        isLoading := false }

/-! ### Community feed: `toggleLike`

The write the operation issues is decided solely from the locally cached
liked-posts set.  The backend write is awaited inside a try whose catch only
logs to the console; `backendThrow` supplies the thrown failure of that
awaited call, when any. -/

inductive LikeAction where
  | insertLike (postId userId : String)
  | deleteLike (postId userId : String)
deriving Repr, DecidableEq

structure ToggleLikeResult where
  signInAlert : Bool
  request : Option LikeAction
  newLiked : List String
  likesDelta : Int
  userMessage : Option String
  consoleErrors : List String
deriving Repr, DecidableEq

def toggleLike (currentUser : Option String) (likedPosts : List String)
    (postId : String) (backendThrow : Option String) : ToggleLikeResult :=
  match currentUser with
  | none =>
    { signInAlert := true, request := none, newLiked := likedPosts,
      likesDelta := 0, userMessage := none, consoleErrors := [] }
  | some uid =>
    let wasLiked := likedPosts.contains postId
    { signInAlert := false
      request := some (if wasLiked then LikeAction.deleteLike postId uid
                       else LikeAction.insertLike postId uid)
      newLiked := if wasLiked then likedPosts.filter (fun p => p ≠ postId)
                  else postId :: likedPosts
      likesDelta := if wasLiked then -1 else 1
      userMessage := none
      consoleErrors := match backendThrow with
        | some e => ["Error toggling like: " ++ e]
        | none => [] }

/-! ### Ad-hoc HTTP calls to the external origin (edit-profile screen and
image-send screen)

Every `fetch` the repository issues against `https://fine-back2.onrender.com`
is modelled as an `HttpRequest` value in the operation's request trace.  The
parsed JSON response is the `ApiResponse` oracle. -/

structure HttpRequest where
  url : String
  method : String
  headers : List (String × String)
deriving Repr, DecidableEq

def fineBackOrigin : String := "https://fine-back2.onrender.com"

def profileBaseUrl : String := "https://fine-back2.onrender.com/api/profile"

structure ApiResponse where
  ok : Bool
  success : Bool
  avatarUrl : Option String
  message : Option String
  error : Option String
deriving Repr, DecidableEq

structure EditProfileResult where
  requests : List HttpRequest
  successToast : Option String
  errorToast : Option String
deriving Repr, DecidableEq

/-- Embedding of `uploadImage`: without a token the operation throws
`No authentication token found` before any fetch, and its catch turns the
thrown error into an error toast; with a token it POSTs the form to
`<base>/upload` with a bearer Authorization header. -/
def uploadImage (token : Option String) (resp : ApiResponse) :
    EditProfileResult :=
  match token with
  | none =>
    { requests := [], successToast := none,
      errorToast := some "Failed to upload image: No authentication token found" }
  | some t =>
    let req : HttpRequest :=
      { url := profileBaseUrl ++ "/upload", method := "POST",
        headers := [("Authorization", "Bearer " ++ t)] }
    if resp.ok && resp.success && resp.avatarUrl.isSome then
      { requests := [req],
        successToast := some (resp.message.getD "Image uploaded successfully!"),
        errorToast := none }
    else
      { requests := [req], successToast := none,
        errorToast := some ("Failed to upload image: " ++ resp.error.getD "Upload failed") }

/-- Embedding of `removeImage`: DELETE on `<base>/avatar`, bearer header,
same no-token error path as `uploadImage`. -/
def removeImage (token : Option String) (resp : ApiResponse) :
    EditProfileResult :=
  match token with
  | none =>
    { requests := [], successToast := none,
      errorToast := some "Failed to remove image: No authentication token found" }
  | some t =>
    let req : HttpRequest :=
      { url := profileBaseUrl ++ "/avatar", method := "DELETE",
        headers := [("Authorization", "Bearer " ++ t),
                    ("Content-Type", "application/json")] }
    if resp.ok && resp.success then
      { requests := [req],
        successToast := some "Profile image removed successfully!",
        errorToast := none }
    else
      { requests := [req], successToast := none,
        errorToast := some ("Failed to remove image: " ++ resp.error.getD "Delete failed") }

/-- Embedding of `saveProfile`: returns without any request when the form
fails validation; otherwise PUT on `<base>/update` with the bearer header,
and the same no-token error path. -/
def saveProfile (formValid : Bool) (token : Option String)
    (resp : ApiResponse) : EditProfileResult :=
  if !formValid then
    { requests := [], successToast := none, errorToast := none }
  else
    match token with
    | none =>
      { requests := [], successToast := none,
        errorToast := some "Failed to update profile: No authentication token found" }
    | some t =>
      let req : HttpRequest :=
        { url := profileBaseUrl ++ "/update", method := "PUT",
          headers := [("Authorization", "Bearer " ++ t),
                      ("Content-Type", "application/json")] }
      if resp.ok && resp.success then
        { requests := [req],
          successToast := some (resp.message.getD "Profile updated successfully!"),
          errorToast := none }
      else
        { requests := [req], successToast := none,
          errorToast := some ("Failed to update profile: " ++ resp.error.getD "Update failed") }

structure SendImagesResult where
  requests : List HttpRequest
  snackbar : Option (String × Bool)
deriving Repr, DecidableEq

/-- Embedding of `sendImages` on the image-send screen: no recipient or no
selected image returns silently; a missing session access token surfaces the
`Please log in again` snackbar without any request; otherwise one POST to
the image-send endpoint with the bearer header. -/
def sendImages (selectedUser : Option String) (imageCount : Nat)
    (accessToken : Option String) (resp : ApiResponse) : SendImagesResult :=
  match selectedUser with
  | none => { requests := [], snackbar := none }
  | some recipient =>
    if imageCount = 0 then { requests := [], snackbar := none }
    else
      match accessToken with
      | none => { requests := [], snackbar := some ("Please log in again", true) }
      | some t =>
        let req : HttpRequest :=
          { url := fineBackOrigin ++ "/api/images/send", method := "POST",
            headers := [("Authorization", "Bearer " ++ t)] }
        let _ := recipient
        if resp.ok && resp.success then
          { requests := [req],
            snackbar := some (resp.message.getD "Images sent successfully!", false) }
        else
          { requests := [req],
            snackbar := some (resp.error.getD "Failed to send images", true) }

/-! ### Debounced user search

The debounce is modelled as a small event semantics.  An input change at
time `t` first cancels the pending timer (a pending timer whose fire time
has already been reached is taken to have fired) and then schedules the
query for time `t + 300`.  `runDebounce` processes a whole trace of input
changes and then lets the last pending timer fire. -/

def debounceDelayMs : Nat := 300

structure DebounceState where
  pending : Option (String × Nat)
  fired : List (String × Nat)
deriving Repr, DecidableEq

def fireDue (s : DebounceState) (now : Nat) : DebounceState :=
  match s.pending with
  | some (q, ft) =>
    if ft ≤ now then { pending := none, fired := s.fired ++ [(q, ft)] } else s
  | none => s

/-- One keystroke: `clearTimeout` of the pending timer followed by
`setTimeout(..., 300)` for the new value. -/
def onInput (s : DebounceState) (v : String) (t : Nat) : DebounceState :=
  let s1 := fireDue s t
  { s1 with pending := some (v, t + debounceDelayMs) }

def flushPending (s : DebounceState) : List (String × Nat) :=
  match s.pending with
  | some (q, ft) => s.fired ++ [(q, ft)]
  | none => s.fired

def runDebounce (events : List (String × Nat)) : List (String × Nat) :=
  flushPending (events.foldl (fun s e => onInput s e.1 e.2)
    { pending := none, fired := [] })

/-- The searches a debounced trace is expected to issue: input `(v, t)`
fires at `t + 300` exactly when the next input change, if any, happens no
earlier than `t + 300`. -/
def stableFires : List (String × Nat) → List (String × Nat)
  | [] => []
  | [(v, t)] => [(v, t + debounceDelayMs)]
  | (v, t) :: (w, u) :: rest =>
    (if t + debounceDelayMs ≤ u then [(v, t + debounceDelayMs)] else []) ++
      stableFires ((w, u) :: rest)

structure SearchStepResult where
  request : Option String
  resultsCleared : Bool
  hasQueryFlag : Bool
  searchingFlag : Bool
deriving Repr, DecidableEq

/-- Embedding of the body of `searchUsers` up to the profiles query: an
empty trimmed query issues nothing and resets the result list and the
searching flags; otherwise the profiles search is issued with the
lowercased term. -/
def searchUsersStep (query : String) : SearchStepResult :=
  if query.trim = "" then
    { request := none, resultsCleared := true, hasQueryFlag := false,
      searchingFlag := false }
  else
    { request := some query.toLower, resultsCleared := false,
      hasQueryFlag := true, searchingFlag := true }

/-! ### Conversation participant-pair keys -/

/-- Embedding of the ordering of the participant pair in
`startConversation` on the conversations screen. -/
def startConversationKey (currentUserId otherUserId : String) :
    String × String :=
  (if currentUserId < otherUserId then currentUserId else otherUserId,
   if currentUserId < otherUserId then otherUserId else currentUserId)

/-- Embedding of the ordering of the participant pair in
`getOrCreateConversation` on the message-detail screen, used both for the
lookup and for the inserted row. -/
def getOrCreateConversationKey (currentUserId otherUserId : String) :
    String × String :=
  (if currentUserId < otherUserId then currentUserId else otherUserId,
   if currentUserId < otherUserId then otherUserId else currentUserId)

/-! ### Unread-notification badge -/

structure NotificationRead where
  notification_id : String
  user_id : String
deriving Repr, DecidableEq

/-- The restricted read query: `notification_reads` rows of the current user
whose `notification_id` is among the fetched notification ids. -/
def readsQuery (table : List NotificationRead) (uid : String)
    (notifIds : List String) : List NotificationRead :=
  table.filter (fun r => r.user_id == uid && notifIds.contains r.notification_id)

/-- Embedding of `loadUnreadNotificationsCount`: zero when no notification
rows exist, otherwise the number of notification ids minus the size of the
set of distinct read notification ids returned by the restricted query. -/
def loadUnreadNotificationsCount (notifIds : List String)
    (table : List NotificationRead) (uid : String) : Int :=
  if notifIds.isEmpty then 0
  else
    let readIds :=
      ((readsQuery table uid notifIds).map (fun r => r.notification_id)).dedup
    (notifIds.length : Int) - (readIds.length : Int)

def hasReadRow (table : List NotificationRead) (uid id : String) : Bool :=
  table.any (fun r => r.user_id == uid && r.notification_id == id)

/-! ### The `mpesa_transactions` table as seen by the dashboard queries -/

structure MpesaRow where
  user_id : String
  amount : Int
  status : String
  created_at : String
deriving Repr, DecidableEq

def mpesaRowTx (r : MpesaRow) : Tx :=
  { amount := r.amount, status := r.status, created_at := r.created_at }

/-- Rows returned by the fallback statistics query: filtered by user only,
with no condition on `status`. -/
def statsQueryRows (table : List MpesaRow) (uid : String) : List Tx :=
  (table.filter (fun r => r.user_id == uid)).map mpesaRowTx

/-- Rows returned by the monthly-payments query: filtered by user and by
`status = 'completed'`. -/
def monthlyQueryRows (table : List MpesaRow) (uid : String) : List Tx :=
  (table.filter (fun r => r.user_id == uid && r.status == "completed")).map
    mpesaRowTx

def lookupD (m : List (String × Int)) (k : String) : Int :=
  (m.lookup k).getD 0

/-! ## Theorems -/

/-- Claim C1, counterexample part: the claim asserts that `initiatePayment`
takes its success branch whenever the phone number passes validation, but
with a validly formatted phone number and no payment details the function
returns at its first guard: no transaction id is set and no snackbar is
shown. -/
theorem C1_counterexample :
    isValidPhoneNumber "0712345678" = true ∧
    initiatePayment none "0712345678" initialPayUiState = initialPayUiState := by
  exact ⟨by decide, rfl⟩

/-- Claim C1 as amended: `initiateImagePayment` always returns the mock
success response, performing no network request and no state write; and
whenever payment details are present and the phone number passes
validation, `initiatePayment` takes its success branch, setting the current
transaction id and showing the payment-initiated snackbar. -/
theorem C1_stub_payment (params : PaymentParams) (pd : PaymentDetails)
    (phone : String) (st : PayUiState)
    (h : isValidPhoneNumber phone = true) :
    initiateImagePayment params =
      ({ success := true, transactionId := "mock-txn-id", error := none },
        [], []) ∧
    (initiatePayment (some pd) phone st).currentTransactionId =
      some "mock-txn-id" ∧
    (initiatePayment (some pd) phone st).snackbar =
      some ("Payment initiated. Check your phone for M-Pesa prompt.",
              SnackKind.success) := by
  have hlen : phone.length = 10 := by
    have h1 := h
    simp only [isValidPhoneNumber, Bool.and_eq_true, beq_iff_eq] at h1
    exact h1.1.1
  have hne : (phone == "") = false := by
    rw [beq_eq_false_iff_ne]
    intro hcontr
    rw [hcontr] at hlen
    simp at hlen
  refine ⟨rfl, ?_, ?_⟩ <;>
    simp [initiatePayment, hne, h, initiateImagePayment, initiatePaymentWith]

/-- Witness for C1_stub_payment at a concrete valid phone number. -/
theorem C1_stub_payment_witness :
    isValidPhoneNumber "0712345678" = true ∧
    (initiatePayment
        (some { imageIds := ["img1"], totalAmount := 100,
                description := "Purchase 1 image" })
        "0712345678" initialPayUiState).currentTransactionId =
      some "mock-txn-id" := by
  have h : isValidPhoneNumber "0712345678" = true := by decide
  exact ⟨h,
    (C1_stub_payment
      { phoneNumber := "0712345678", imageIds := ["img1"], totalAmount := 100,
        transactionDescription := "Purchase 1 image" }
      { imageIds := ["img1"], totalAmount := 100,
        description := "Purchase 1 image" }
      "0712345678" initialPayUiState h).2.1⟩

/-- Claim C2, counterexample part: the per-conversation message
subscription does not refetch; its handler patches local state from the
event payload, prepending `payload.new` to the message list when the sender
is not the current user. -/
theorem C2_counterexample :
    (messageDetailReg "c1").behavior = HandlerBehavior.patchFromPayload ∧
    messageDetailOnInsert (some "u1") []
        { id := "m1", conversation_id := "c1", sender_id := "u2",
          receiver_id := "u1", content := "hi", is_read := false } =
      ([{ id := "m1", conversation_id := "c1", sender_id := "u2",
          receiver_id := "u1", content := "hi", is_read := false }], true) := by
  exact ⟨rfl, by decide⟩

/-- Claim C2 as amended: every realtime subscription handler in the
repository triggers a full refetch of its view, except the per-conversation
message subscription, whose handler patches local state from the event
payload: it prepends the payload message and marks messages read when the
sender is someone else, and does nothing when the payload message is the
current user's own. -/
theorem C2_handlers (uid cid : String) :
    (∀ r ∈ repoSubscriptions uid cid,
        r = messageDetailReg cid ∨
          ∃ f, r.behavior = HandlerBehavior.refetchAll f) ∧
    (messageDetailReg cid).behavior = HandlerBehavior.patchFromPayload ∧
    (∀ (u : String) (prev : List Message) (m : Message), m.sender_id ≠ u →
        messageDetailOnInsert (some u) prev m = (m :: prev, true)) ∧
    (∀ (u : String) (prev : List Message) (m : Message), m.sender_id = u →
        messageDetailOnInsert (some u) prev m = (prev, false)) := by
  refine ⟨?_, rfl, ?_, ?_⟩
  · intro r hr
    simp only [repoSubscriptions, unreadMessagesRegs, notificationBadgeRegs,
      notificationsPageRegs, messagesChannelReg, List.mem_cons,
      List.mem_append, List.mem_singleton, List.not_mem_nil, or_false] at hr
    rcases hr with h | h | (((h | h) | (h | h | h)) | h | h)
    · exact Or.inr ⟨"loadConversations", by subst h; rfl⟩
    · exact Or.inl h
    · exact Or.inr ⟨"loadUnreadMessagesCount", by subst h; rfl⟩
    · exact Or.inr ⟨"loadUnreadMessagesCount", by subst h; rfl⟩
    · exact Or.inr ⟨"loadUnreadNotificationsCount", by subst h; rfl⟩
    · exact Or.inr ⟨"loadUnreadNotificationsCount", by subst h; rfl⟩
    · exact Or.inr ⟨"loadUnreadNotificationsCount", by subst h; rfl⟩
    · exact Or.inr ⟨"loadNotifications", by subst h; rfl⟩
    · exact Or.inr ⟨"loadNotifications", by subst h; rfl⟩
  · intro u prev m hm
    simp [messageDetailOnInsert, hm]
  · intro u prev m hm
    simp [messageDetailOnInsert, hm]

/-- Witness for C2_handlers: a concrete payload message from another sender
is prepended to the local list. -/
theorem C2_handlers_witness :
    ("u2" : String) ≠ "u1" ∧
    messageDetailOnInsert (some "u1") []
        { id := "m2", conversation_id := "c1", sender_id := "u2",
          receiver_id := "u1", content := "yo", is_read := false } =
      ([{ id := "m2", conversation_id := "c1", sender_id := "u2",
          receiver_id := "u1", content := "yo", is_read := false }], true) := by
  refine ⟨by decide, ?_⟩
  exact (C2_handlers "u1" "c1").2.2.1 "u1" []
    { id := "m2", conversation_id := "c1", sender_id := "u2",
      receiver_id := "u1", content := "yo", is_read := false } (by decide)

/-- Claim C5, counterexample part: the conversations-list subscription
registers on the `messages` table with no row-level filter at all. -/
theorem C5_counterexample :
    messagesChannelReg.table = "messages" ∧
    messagesChannelReg.filter = none := ⟨rfl, rfl⟩

/-- Claim C5 as amended: every registration names exactly one table, but
only five of the nine carry a row-level filter (the per-conversation
message subscription, the two unread-message registrations, and the two
read-receipt registrations); the conversations-list messages registration
and the three notifications-table registrations have no row filter. -/
theorem C5_subscription_filters (uid cid : String) :
    ((repoSubscriptions uid cid).filter
        (fun r => r.filter.isNone)).map (fun r => (r.table, r.event)) =
      [("messages", "INSERT"), ("notifications", "INSERT"),
        ("notifications", "DELETE"), ("notifications", "*")] ∧
    ((repoSubscriptions uid cid).filter
        (fun r => r.filter.isSome)).map (fun r => (r.table, r.filter)) =
      [("messages", some ("conversation_id=eq." ++ cid)),
        ("messages", some ("receiver_id=eq." ++ uid)),
        ("messages", some ("receiver_id=eq." ++ uid)),
        ("notification_reads", some ("user_id=eq." ++ uid)),
        ("notification_reads", some ("user_id=eq." ++ uid))] := by
  exact ⟨rfl, rfl⟩

/-- Claim C7: `toggleLike` chooses its backend write solely from the
locally cached liked-posts set: it issues an insert exactly when the post id
is absent from the set and a delete exactly when it is present, updating the
cached set to match; the at-most-one-like guarantee is not enforced by any
further client logic. -/
theorem C7_toggleLike (uid : String) (liked : List String) (postId : String)
    (bt : Option String) :
    ((toggleLike (some uid) liked postId bt).request =
        some (LikeAction.insertLike postId uid) ↔
      liked.contains postId = false) ∧
    ((toggleLike (some uid) liked postId bt).request =
        some (LikeAction.deleteLike postId uid) ↔
      liked.contains postId = true) ∧
    (toggleLike (some uid) liked postId bt).request =
      some (if liked.contains postId then LikeAction.deleteLike postId uid
            else LikeAction.insertLike postId uid) := by
  by_cases hc : liked.contains postId <;> simp [toggleLike, hc]

/-- Claim C8: both conversation-key computations canonically order a
distinct participant pair, agree with each other, and are insensitive to
which participant initiates; the first component is always the
lexicographically smaller id. -/
theorem C8_conversation_keys (a b : String) (h : a ≠ b) :
    startConversationKey a b = getOrCreateConversationKey a b ∧
    getOrCreateConversationKey a b = getOrCreateConversationKey b a ∧
    (getOrCreateConversationKey a b).1 < (getOrCreateConversationKey a b).2 := by
  rcases lt_or_gt_of_ne h with hlt | hgt
  · have h1 : ¬ b < a := lt_asymm hlt
    exact ⟨rfl, by simp [getOrCreateConversationKey, hlt, h1],
      by simp [getOrCreateConversationKey, hlt, h1]⟩
  · have h1 : ¬ a < b := lt_asymm hgt
    exact ⟨rfl, by simp [getOrCreateConversationKey, hgt, h1],
      by simp [getOrCreateConversationKey, hgt, h1]⟩

/-- Witness for C8_conversation_keys on a concrete distinct pair. -/
theorem C8_conversation_keys_witness :
    ("alice" : String) ≠ "bob" ∧
    getOrCreateConversationKey "alice" "bob" =
      getOrCreateConversationKey "bob" "alice" := by
  have h : ("alice" : String) ≠ "bob" := by decide
  exact ⟨h, (C8_conversation_keys "alice" "bob" h).2.1⟩

/-- Claim C3, counterexample part: `toggleLike` with a failing backend
write issues the write but surfaces no message to the user (the failure is
at most logged to the console); and the marketplace payment screen's
failure handler calls a `showSnackBar` that is itself a console.log stub,
so a failed payment initiation is also only logged, never shown. -/
theorem C3_counterexample :
    (toggleLike (some "u1") [] "p1" (some "network error")).request =
      some (LikeAction.insertLike "p1" "u1") ∧
    (toggleLike (some "u1") [] "p1" (some "network error")).userMessage =
      none ∧
    (toggleLike (some "u1") [] "p1" (some "network error")).consoleErrors =
      ["Error toggling like: network error"] ∧
    (Market.showSnackBar "Failed to initiate payment"
        SnackKind.error).renderedMessage = none ∧
    (Market.showSnackBar "Failed to initiate payment"
        SnackKind.error).consoleLines =
      ["ERROR: Failed to initiate payment"] := by
  exact ⟨rfl, rfl, rfl, rfl, rfl⟩

/-- Claim C3 as amended: the dashboard load and the per-conversation
message load catch a failing backend call in their own handler and surface
a user-visible message (inline dashboard error state, toast), and no
operation automatically re-issues a failed request (each backend request
appears at most once in an invocation's trace); but the surface-a-message
discipline is not universal: the marketplace `initiatePayment` failure
branch only calls the Market component's `showSnackBar`, which is a
console.log stub rendering nothing, and `toggleLike` never surfaces a
user-visible message when its backend write fails. -/
theorem C3_error_handling :
    (∀ (o : DashOracle) (mk : String → String),
        ((loadDashboardData o mk).1).Nodup) ∧
    (∀ (o : DashOracle) (mk : String → String), o.session = none →
        (loadDashboardData o mk).2.error =
          some "No authenticated user found") ∧
    (∀ (o : DashOracle) (mk : String → String) (uid e : String),
        o.session = some uid →
        firstDashError (loadTransactionStats uid o).2
            (loadRecentTransactions uid o).2
            (loadMonthlyPayments uid o mk).2 = some e →
        (loadDashboardData o mk).2.error =
          some ("Failed to load dashboard data: " ++ e)) ∧
    (∀ (cid e : String),
        loadMessages (some cid) (Except.error e) =
          { requests := ["select messages where conversation_id=eq." ++ cid],
            messages := none,
            toast := some ("Error loading messages", true),
            isLoading := false }) ∧
    (∀ (resp : PaymentResponse) (st : PayUiState),
        (resp.success && !(resp.transactionId == "")) = false →
        (initiatePaymentWith resp st).snackbar =
          some (resp.error.getD "Failed to initiate payment",
                  SnackKind.error)) ∧
    (∀ (message : String) (kind : SnackKind),
        (Market.showSnackBar message kind).renderedMessage = none ∧
        (Market.showSnackBar message kind).consoleLines =
          [Market.kindUpper kind ++ ": " ++ message]) ∧
    (∀ (cu : Option String) (liked : List String) (pid : String)
        (bt : Option String),
        (toggleLike cu liked pid bt).userMessage = none) := by
  refine ⟨?_, ?_, ?_, ?_, ?_, fun message kind => ⟨rfl, rfl⟩, ?_⟩
  · intro o mk
    cases hs : o.session with
    | none => simp [loadDashboardData, hs]
    | some uid =>
      simp only [loadDashboardData, hs]
      cases hrpc : o.rpcStats with
      | ok ov =>
        cases ov with
        | none =>
          simp [loadTransactionStats, loadRecentTransactions,
            loadMonthlyPayments, hrpc]
        | some row =>
          simp [loadTransactionStats, loadRecentTransactions,
            loadMonthlyPayments, hrpc]
      | error m =>
        simp [loadTransactionStats, loadRecentTransactions,
          loadMonthlyPayments, hrpc]
  · intro o mk hs
    simp [loadDashboardData, hs]
  · intro o mk uid e hs hfd
    simp only [loadDashboardData, hs, hfd]
  · intro cid e
    rfl
  · intro resp st h
    simp [initiatePaymentWith, h]
  · intro cu liked pid bt
    cases cu <;> rfl

/-- Witness for C3_error_handling: a concrete failing payment response is
surfaced as an error snackbar. -/
theorem C3_error_handling_witness :
    ((({ success := false, transactionId := "", error := some "declined" } :
          PaymentResponse).success &&
        !(({ success := false, transactionId := "",
              error := some "declined" } :
            PaymentResponse).transactionId == "")) = false) ∧
    (initiatePaymentWith
        { success := false, transactionId := "", error := some "declined" }
        initialPayUiState).snackbar = some ("declined", SnackKind.error) := by
  refine ⟨by decide, ?_⟩
  exact C3_error_handling.2.2.2.2.1
    { success := false, transactionId := "", error := some "declined" }
    initialPayUiState (by decide)

/-- Claim C4: every HTTP request sent to the external origin
`https://fine-back2.onrender.com` by the profile-image operations and the
image-send operation carries an `Authorization: Bearer <token>` header, and
when no token is available the operation sends nothing and ends in its
error path (the no-token error toast, or the log-in-again snackbar). -/
theorem C4_bearer_token :
    (∀ (t : String) (resp : ApiResponse),
        ∀ r ∈ (uploadImage (some t) resp).requests,
          (∃ path, r.url = fineBackOrigin ++ path) ∧
          ("Authorization", "Bearer " ++ t) ∈ r.headers) ∧
    (∀ resp : ApiResponse, (uploadImage none resp).requests = [] ∧
        (uploadImage none resp).errorToast =
          some "Failed to upload image: No authentication token found") ∧
    (∀ (t : String) (resp : ApiResponse),
        ∀ r ∈ (removeImage (some t) resp).requests,
          (∃ path, r.url = fineBackOrigin ++ path) ∧
          ("Authorization", "Bearer " ++ t) ∈ r.headers) ∧
    (∀ resp : ApiResponse, (removeImage none resp).requests = [] ∧
        (removeImage none resp).errorToast =
          some "Failed to remove image: No authentication token found") ∧
    (∀ (fv : Bool) (t : String) (resp : ApiResponse),
        ∀ r ∈ (saveProfile fv (some t) resp).requests,
          (∃ path, r.url = fineBackOrigin ++ path) ∧
          ("Authorization", "Bearer " ++ t) ∈ r.headers) ∧
    (∀ resp : ApiResponse, (saveProfile true none resp).requests = [] ∧
        (saveProfile true none resp).errorToast =
          some "Failed to update profile: No authentication token found") ∧
    (∀ (recipient : String) (n : Nat) (t : String) (resp : ApiResponse),
        ∀ r ∈ (sendImages (some recipient) n (some t) resp).requests,
          (∃ path, r.url = fineBackOrigin ++ path) ∧
          ("Authorization", "Bearer " ++ t) ∈ r.headers) ∧
    (∀ (recipient : String) (n : Nat) (resp : ApiResponse),
        (sendImages (some recipient) (n + 1) none resp).requests = [] ∧
        (sendImages (some recipient) (n + 1) none resp).snackbar =
          some ("Please log in again", true)) := by
  refine ⟨?_, fun _ => ⟨rfl, rfl⟩, ?_, fun _ => ⟨rfl, rfl⟩, ?_,
    fun _ => ⟨rfl, rfl⟩, ?_, ?_⟩
  · intro t resp r hr
    simp only [uploadImage] at hr
    split at hr <;> simp only [List.mem_singleton] at hr <;> subst hr <;>
      exact ⟨⟨"/api/profile/upload", rfl⟩, by simp⟩
  · intro t resp r hr
    simp only [removeImage] at hr
    split at hr <;> simp only [List.mem_singleton] at hr <;> subst hr <;>
      exact ⟨⟨"/api/profile/avatar", rfl⟩, by simp⟩
  · intro fv t resp r hr
    simp only [saveProfile] at hr
    split at hr
    · simp at hr
    · split at hr <;> simp only [List.mem_singleton] at hr <;> subst hr <;>
        exact ⟨⟨"/api/profile/update", rfl⟩, by simp⟩
  · intro recipient n t resp r hr
    simp only [sendImages] at hr
    split at hr
    · simp at hr
    · split at hr <;> simp only [List.mem_singleton] at hr <;> subst hr <;>
        exact ⟨⟨"/api/images/send", rfl⟩, by simp⟩
  · intro recipient n resp
    constructor <;> simp [sendImages]

/-- Witness for C4_bearer_token: the concrete upload request carries the
bearer header for a concrete token. -/
theorem C4_bearer_token_witness :
    ({ url := profileBaseUrl ++ "/upload", method := "POST",
        headers := [("Authorization", "Bearer " ++ "tok123")] } :
        HttpRequest) ∈
      (uploadImage (some "tok123")
        { ok := true, success := true, avatarUrl := some "https://cdn/x.png",
          message := none, error := none }).requests ∧
    ("Authorization", "Bearer " ++ "tok123") ∈
      ({ url := profileBaseUrl ++ "/upload", method := "POST",
          headers := [("Authorization", "Bearer " ++ "tok123")] } :
          HttpRequest).headers := by
  have hmem :
      ({ url := profileBaseUrl ++ "/upload", method := "POST",
          headers := [("Authorization", "Bearer " ++ "tok123")] } :
          HttpRequest) ∈
        (uploadImage (some "tok123")
          { ok := true, success := true,
            avatarUrl := some "https://cdn/x.png",
            message := none, error := none }).requests := by
    simp [uploadImage]
  exact ⟨hmem, (C4_bearer_token.1 "tok123"
    { ok := true, success := true, avatarUrl := some "https://cdn/x.png",
      message := none, error := none } _ hmem).2⟩

/-- Helper: running the debounce step over a trace from a state with one
pending timer produces exactly the already-fired searches followed by the
stable fires of the pending input and the remaining trace. -/
theorem flushPending_foldl (evs : List (String × Nat)) :
    ∀ (fired : List (String × Nat)) (v : String) (t : Nat),
      flushPending (evs.foldl (fun s e => onInput s e.1 e.2)
        { pending := some (v, t + debounceDelayMs), fired := fired }) =
      fired ++ stableFires ((v, t) :: evs) := by
  induction evs with
  | nil => intro fired v t; rfl
  | cons e rest ih =>
    intro fired v t
    obtain ⟨w, u⟩ := e
    rw [List.foldl_cons]
    by_cases hc : t + debounceDelayMs ≤ u
    · have hstep :
          onInput { pending := some (v, t + debounceDelayMs), fired := fired }
              w u =
            { pending := some (w, u + debounceDelayMs),
              fired := fired ++ [(v, t + debounceDelayMs)] } := by
        simp [onInput, fireDue, hc]
      rw [hstep, ih]
      simp [stableFires, hc]
    · have hstep :
          onInput { pending := some (v, t + debounceDelayMs), fired := fired }
              w u =
            { pending := some (w, u + debounceDelayMs), fired := fired } := by
        simp [onInput, fireDue, hc]
      rw [hstep, ih]
      simp [stableFires, hc]

/-- Helper: the debounce semantics issues exactly the stable searches. -/
theorem runDebounce_eq (evs : List (String × Nat)) :
    runDebounce evs = stableFires evs := by
  cases evs with
  | nil => rfl
  | cons e rest =>
    obtain ⟨v, t⟩ := e
    have hstep : onInput { pending := none, fired := [] } v t =
        { pending := some (v, t + debounceDelayMs), fired := [] } := rfl
    rw [runDebounce, List.foldl_cons, hstep, flushPending_foldl]
    rfl

/-- Helper: for strictly increasing input times, every issued search comes
from an input that stayed unchanged for the whole debounce window. -/
theorem stableFires_mem (evs : List (String × Nat))
    (hp : List.Pairwise (fun a b : String × Nat => a.2 < b.2) evs) :
    ∀ p ∈ stableFires evs, ∃ q ∈ evs,
      p.1 = q.1 ∧ p.2 = q.2 + debounceDelayMs ∧
        ∀ r ∈ evs, r.2 ≤ q.2 ∨ q.2 + debounceDelayMs ≤ r.2 := by
  induction evs with
  | nil => intro p hmem; simp [stableFires] at hmem
  | cons e rest ih =>
    cases rest with
    | nil =>
      intro p hmem
      obtain ⟨v, t⟩ := e
      simp only [stableFires, List.mem_singleton] at hmem
      subst hmem
      exact ⟨(v, t), by simp, rfl, rfl, by simp⟩
    | cons e2 rest2 =>
      intro p hmem
      obtain ⟨v, t⟩ := e
      obtain ⟨w, u⟩ := e2
      simp only [stableFires] at hmem
      rcases List.mem_append.1 hmem with h1 | h2
      · by_cases hc : t + debounceDelayMs ≤ u
        · rw [if_pos hc] at h1
          simp only [List.mem_singleton] at h1
          subst h1
          refine ⟨(v, t), by simp, rfl, rfl, ?_⟩
          intro r hr
          rcases List.mem_cons.1 hr with h | h
          · subst h; exact Or.inl (le_refl _)
          · refine Or.inr ?_
            rcases List.mem_cons.1 h with h' | h'
            · subst h'; exact hc
            · have hu : u < r.2 :=
                (List.pairwise_cons.1 (List.pairwise_cons.1 hp).2).1 r h'
              exact le_trans hc (le_of_lt hu)
        · rw [if_neg hc] at h1
          simp at h1
      · have hp2 := (List.pairwise_cons.1 hp).2
        obtain ⟨q, hq, h1, h2, h3⟩ := ih hp2 p h2
        refine ⟨q, List.mem_cons_of_mem _ hq, h1, h2, ?_⟩
        intro r hr
        rcases List.mem_cons.1 hr with h | h
        · subst h
          exact Or.inl (le_of_lt ((List.pairwise_cons.1 hp).1 q hq))
        · exact h3 r h

/-- Claim C6: the debounced user search issues exactly the searches of
inputs that stay unchanged for the whole 300 ms window (each keystroke
cancels the pending timer before scheduling a new one, so at most one timer
is pending, and under strictly increasing input times every issued search
fires 300 ms after its input with no further input change inside the
window); and an empty trimmed query issues no search and resets the result
list and the searching flags. -/
theorem C6_debounced_search :
    (∀ evs, runDebounce evs = stableFires evs) ∧
    (∀ (s : DebounceState) (v : String) (t : Nat),
        (onInput s v t).pending = some (v, t + debounceDelayMs)) ∧
    (∀ evs, List.Pairwise (fun a b : String × Nat => a.2 < b.2) evs →
        ∀ p ∈ runDebounce evs, ∃ q ∈ evs,
          p.1 = q.1 ∧ p.2 = q.2 + debounceDelayMs ∧
            ∀ r ∈ evs, r.2 ≤ q.2 ∨ q.2 + debounceDelayMs ≤ r.2) ∧
    (∀ q : String, q.trim = "" →
        searchUsersStep q =
          { request := none, resultsCleared := true, hasQueryFlag := false,
            searchingFlag := false }) ∧
    (∀ q : String, q.trim ≠ "" →
        searchUsersStep q =
          { request := some q.toLower, resultsCleared := false,
            hasQueryFlag := true, searchingFlag := true }) := by
  refine ⟨runDebounce_eq, fun s v t => rfl, ?_, ?_, ?_⟩
  · intro evs hp p hmem
    exact stableFires_mem evs hp p (by rw [← runDebounce_eq]; exact hmem)
  · intro q h
    simp [searchUsersStep, h]
  · intro q h
    simp [searchUsersStep, h]

/-- Witness for C6_debounced_search on a concrete three-keystroke trace:
the middle input survives its window and fires at its input time plus
300 ms. -/
theorem C6_debounced_search_witness :
    List.Pairwise (fun a b : String × Nat => a.2 < b.2)
      [("a", 0), ("ab", 100), ("abc", 500)] ∧
    ("ab", 400) ∈ runDebounce [("a", 0), ("ab", 100), ("abc", 500)] ∧
    (∃ q ∈ [(("a" : String), (0 : Nat)), ("ab", 100), ("abc", 500)],
      ("ab", (400 : Nat)).1 = q.1 ∧ ("ab", (400 : Nat)).2 = q.2 + debounceDelayMs ∧
        ∀ r ∈ [(("a" : String), (0 : Nat)), ("ab", 100), ("abc", 500)],
          r.2 ≤ q.2 ∨ q.2 + debounceDelayMs ≤ r.2) := by
  refine ⟨by decide, by decide, ?_⟩
  exact C6_debounced_search.2.2.1 [("a", 0), ("ab", 100), ("abc", 500)]
    (by decide) ("ab", 400) (by decide)

/-- Helper: the distinct read ids returned by the restricted query form a
subset of the fetched notification ids. -/
theorem readIds_subset (table : List NotificationRead) (uid : String)
    (ids : List String) :
    ((readsQuery table uid ids).map (fun r => r.notification_id)).dedup ⊆
      ids := by
  intro x hx
  rw [List.mem_dedup] at hx
  obtain ⟨r, hrmem, hrid⟩ := List.mem_map.1 hx
  have hpred := (List.mem_filter.1 hrmem).2
  rw [Bool.and_eq_true] at hpred
  have hcont : ids.contains r.notification_id = true := hpred.2
  rw [← hrid]
  simpa using hcont

/-- Helper: the distinct read ids are exactly the fetched notification ids
that have a matching read row, as a finite set. -/
theorem readIds_toFinset (table : List NotificationRead) (uid : String)
    (ids : List String) :
    (((readsQuery table uid ids).map
        (fun r => r.notification_id)).dedup).toFinset =
      (ids.filter (fun id => hasReadRow table uid id)).toFinset := by
  ext x
  simp only [List.mem_toFinset, List.mem_dedup, List.mem_map, readsQuery,
    List.mem_filter, hasReadRow, List.any_eq_true, Bool.and_eq_true,
    beq_iff_eq, List.elem_iff, List.contains]
  constructor
  · rintro ⟨r, ⟨hrmem, hu, hc⟩, rfl⟩
    exact ⟨hc, r, hrmem, hu, rfl⟩
  · rintro ⟨hmem, r, hrmem, hu, hid⟩
    exact ⟨r, ⟨hrmem, hu, by rw [hid]; exact hmem⟩, hid⟩

/-- Claim C9: the unread-notifications badge is the number of notification
rows minus the number of distinct fetched notifications with a read row of
the current user (the read query being restricted to the fetched ids); the
computed count is never negative, and it is exactly 0 when there are no
notification rows. -/
theorem C9_unread_badge :
    (∀ (ids : List String) (table : List NotificationRead) (uid : String),
        0 ≤ loadUnreadNotificationsCount ids table uid) ∧
    (∀ (table : List NotificationRead) (uid : String),
        loadUnreadNotificationsCount [] table uid = 0) ∧
    (∀ (ids : List String) (table : List NotificationRead) (uid : String),
        ids.Nodup →
        loadUnreadNotificationsCount ids table uid =
          (ids.length : Int) -
            ((ids.filter (fun id => hasReadRow table uid id)).length : Int)) := by
  refine ⟨?_, fun table uid => rfl, ?_⟩
  · intro ids table uid
    by_cases hemp : ids.isEmpty
    · simp [loadUnreadNotificationsCount, hemp]
    · simp only [loadUnreadNotificationsCount, hemp, Bool.false_eq_true,
        if_false]
      set d := ((readsQuery table uid ids).map
        (fun r => r.notification_id)).dedup with hd
      have hnd : d.Nodup := List.nodup_dedup _
      have hlen : d.length ≤ ids.length := by
        calc d.length = d.toFinset.card := (List.toFinset_card_of_nodup hnd).symm
          _ ≤ ids.toFinset.card := by
              apply Finset.card_le_card
              intro x hx
              rw [List.mem_toFinset] at hx ⊢
              exact readIds_subset table uid ids hx
          _ ≤ ids.length := ids.toFinset_card_le
      omega
  · intro ids table uid hnodup
    by_cases hemp : ids.isEmpty
    · have h0 : ids = [] := List.isEmpty_iff.1 hemp
      subst h0
      rfl
    · simp only [loadUnreadNotificationsCount, hemp, Bool.false_eq_true,
        if_false]
      have hnd : (((readsQuery table uid ids).map
          (fun r => r.notification_id)).dedup).Nodup := List.nodup_dedup _
      have hndf : (ids.filter (fun id => hasReadRow table uid id)).Nodup :=
        hnodup.filter _
      have hcard :
          (((readsQuery table uid ids).map
              (fun r => r.notification_id)).dedup).length =
            (ids.filter (fun id => hasReadRow table uid id)).length := by
        calc (((readsQuery table uid ids).map
              (fun r => r.notification_id)).dedup).length
            = (((readsQuery table uid ids).map
                (fun r => r.notification_id)).dedup).toFinset.card :=
              (List.toFinset_card_of_nodup hnd).symm
          _ = (ids.filter (fun id => hasReadRow table uid id)).toFinset.card :=
              by rw [readIds_toFinset]
          _ = (ids.filter (fun id => hasReadRow table uid id)).length :=
              List.toFinset_card_of_nodup hndf
      rw [hcard]

/-- Witness for C9_unread_badge: two notifications, one read row. -/
theorem C9_unread_badge_witness :
    (["n1", "n2"] : List String).Nodup ∧
    loadUnreadNotificationsCount ["n1", "n2"]
        [{ notification_id := "n1", user_id := "u1" }] "u1" =
      ((["n1", "n2"] : List String).length : Int) -
        (((["n1", "n2"] : List String).filter
            (fun id => hasReadRow
              [{ notification_id := "n1", user_id := "u1" }] "u1" id)).length :
          Int) := by
  refine ⟨by decide, ?_⟩
  exact C9_unread_badge.2.2 ["n1", "n2"]
    [{ notification_id := "n1", user_id := "u1" }] "u1" (by decide)

/-- Helper: a single association-list bump changes exactly the bumped key,
by the bumped amount. -/
theorem lookupD_bumpMonth (k : String) (a : Int) (k' : String)
    (m : List (String × Int)) :
    lookupD (bumpMonth m k a) k' = lookupD m k' + (if k = k' then a else 0) := by
  induction m with
  | nil =>
    by_cases h : k = k'
    · subst h; simp [bumpMonth, lookupD, List.lookup_cons]
    · simp [bumpMonth, lookupD, List.lookup_cons,
        beq_false_of_ne (Ne.symm h), h]
  | cons e rest ih =>
    obtain ⟨k1, v⟩ := e
    by_cases h1 : k1 = k
    · subst h1
      by_cases h2 : k1 = k'
      · subst h2; simp [bumpMonth, lookupD, List.lookup_cons]
      · simp [bumpMonth, lookupD, List.lookup_cons,
          beq_false_of_ne (Ne.symm h2), h2]
    · by_cases h2 : k1 = k'
      · subst h2
        have hkk : ¬ k = k1 := fun hh => h1 hh.symm
        simp [bumpMonth, lookupD, List.lookup_cons, h1, hkk]
      · simp only [bumpMonth, if_neg h1]
        simp only [lookupD, List.lookup_cons,
          beq_false_of_ne (Ne.symm h2)]
        simpa [lookupD] using ih

/-- Helper: folding transactions into the month map accumulates, per month
key, the sum of the amounts of the transactions of that month. -/
theorem lookupD_monthlyFold_from (mk : String → String) (k : String) :
    ∀ (txs : List Tx) (m : List (String × Int)),
      lookupD (txs.foldl
          (fun m t => bumpMonth m (mk t.created_at) t.amount) m) k =
        lookupD m k +
          ((txs.filter (fun t => mk t.created_at == k)).map
            (fun t => t.amount)).sum := by
  intro txs
  induction txs with
  | nil => intro m; simp
  | cons t rest ih =>
    intro m
    rw [List.foldl_cons, ih, lookupD_bumpMonth]
    by_cases h : mk t.created_at = k
    · simp [List.filter_cons, h]
      omega
    · simp [List.filter_cons, beq_eq_false_iff_ne.mpr h, h]

/-- Helper: the sum of the three status counts never exceeds the row count,
with equality exactly when every row has one of the three statuses. -/
theorem statusCounts (txs : List Tx) :
    txs.countP (fun t => t.status == "completed") +
        txs.countP (fun t => t.status == "failed") +
        txs.countP (fun t => t.status == "pending") ≤ txs.length ∧
      (txs.countP (fun t => t.status == "completed") +
          txs.countP (fun t => t.status == "failed") +
          txs.countP (fun t => t.status == "pending") = txs.length ↔
        ∀ t ∈ txs, t.status = "completed" ∨ t.status = "failed" ∨
          t.status = "pending") := by
  induction txs with
  | nil => simp
  | cons t rest ih =>
    obtain ⟨ihle, ihiff⟩ := ih
    by_cases h1 : t.status = "completed"
    · refine ⟨?_, ?_⟩
      · simp only [List.countP_cons, List.length_cons, h1]
        simp
        omega
      · simp only [List.countP_cons, List.length_cons, List.forall_mem_cons,
          h1]
        simp
        constructor
        · intro he; exact ihiff.1 (by omega)
        · intro hall; have := ihiff.2 hall; omega
    · by_cases h2 : t.status = "failed"
      · refine ⟨?_, ?_⟩
        · simp only [List.countP_cons, List.length_cons, h2]
          simp
          omega
        · simp only [List.countP_cons, List.length_cons,
            List.forall_mem_cons, h2]
          simp
          constructor
          · intro he; exact ihiff.1 (by omega)
          · intro hall; have := ihiff.2 hall; omega
      · by_cases h3 : t.status = "pending"
        · refine ⟨?_, ?_⟩
          · simp only [List.countP_cons, List.length_cons, h3]
            simp
            omega
          · simp only [List.countP_cons, List.length_cons,
              List.forall_mem_cons, h3]
            simp
            constructor
            · intro he; exact ihiff.1 (by omega)
            · intro hall; have := ihiff.2 hall; omega
        · refine ⟨?_, ?_⟩
          · simp only [List.countP_cons, List.length_cons]
            simp [beq_eq_false_iff_ne.mpr h1, beq_eq_false_iff_ne.mpr h2,
              beq_eq_false_iff_ne.mpr h3]
            omega
          · simp only [List.countP_cons, List.length_cons,
              List.forall_mem_cons]
            simp [beq_eq_false_iff_ne.mpr h1, beq_eq_false_iff_ne.mpr h2,
              beq_eq_false_iff_ne.mpr h3, h1, h2, h3]
            omega

/-- Claim C10: the fallback `total_amount_spent` sums the amounts of all of
the user's transaction rows with no status condition, while the monthly
chart accumulates, per month, only rows whose status is `completed`; and the
completed, failed, and pending counts sum to at most the total count, with
equality exactly when every row carries one of those three statuses. -/
theorem C10_dashboard_stats :
    (∀ (table : List MpesaRow) (uid : String),
        (computeFallbackStats (statsQueryRows table uid)).total_amount_spent =
          ((table.filter (fun r => r.user_id == uid)).map
            (fun r => r.amount)).sum) ∧
    (∀ (table : List MpesaRow) (uid : String) (mk : String → String)
        (k : String),
        lookupD (monthlyFold mk (monthlyQueryRows table uid)) k =
          ((table.filter (fun r =>
              (r.user_id == uid && r.status == "completed") &&
                (mk r.created_at == k))).map (fun r => r.amount)).sum) ∧
    (∀ txs : List Tx,
        (computeFallbackStats txs).completed_transactions +
            (computeFallbackStats txs).failed_transactions +
            (computeFallbackStats txs).pending_transactions ≤
          (computeFallbackStats txs).total_transactions ∧
        ((computeFallbackStats txs).completed_transactions +
              (computeFallbackStats txs).failed_transactions +
              (computeFallbackStats txs).pending_transactions =
            (computeFallbackStats txs).total_transactions ↔
          ∀ t ∈ txs, t.status = "completed" ∨ t.status = "failed" ∨
            t.status = "pending")) := by
  refine ⟨?_, ?_, ?_⟩
  · intro table uid
    simp [computeFallbackStats, statsQueryRows, List.map_map,
      Function.comp_def, mpesaRowTx]
  · intro table uid mk k
    have h0 := lookupD_monthlyFold_from mk k (monthlyQueryRows table uid) []
    rw [monthlyFold, h0]
    have hz : lookupD [] k = 0 := rfl
    rw [hz, zero_add]
    refine congrArg List.sum ?_
    simp only [monthlyQueryRows]
    rw [List.filter_map, List.filter_filter, List.map_map]
    have hpred : ∀ r ∈ table,
        (((fun t : Tx => mk t.created_at == k) ∘ mpesaRowTx) r &&
            (r.user_id == uid && r.status == "completed")) =
          ((r.user_id == uid && r.status == "completed") &&
            (mk r.created_at == k)) := by
      intro r _
      exact Bool.and_comm _ _
    rw [List.filter_congr hpred]
    simp [Function.comp_def, mpesaRowTx]
  · intro txs
    have h := statusCounts txs
    simpa [computeFallbackStats] using h

end Finetake
